import Mathlib

/-!
Verification of the PX4 ADC driver (`src/drivers/adc/ADC.cpp`).

The driver is embedded shallowly: each C++ function becomes a Lean
function over explicit state.  Board- and framework-level constants that
live outside the single source file (`ADC_TOTAL_CHANNELS`,
`PX4_MAX_ADC_CHANNELS`, `kINTERVAL`, the base address, the requested
channel mask) are kept as parameters, so every theorem quantifies over
them.  The hardware collaborator `px4_arch_adc_sample` is an oracle
`hw : Nat → Nat` giving the raw value returned for a channel during the
cycle under consideration.
-/

namespace ADCVerify

/-- PX4 success return code (`PX4_OK`). -/
def PX4_OK : Int := 0

/-- PX4 generic error return code (`PX4_ERROR`). -/
def PX4_ERROR : Int := -1

/-- The all-ones 32-bit value: the sample-timeout sentinel (`UINT32_MAX`). -/
def UINT32_MAX : Nat := 2 ^ 32 - 1

/-- One slot of the driver's sample array (`px4_adc_msg_t`):
a channel id and the last raw value read for it. -/
structure px4_adc_msg_t where
  am_channel : Nat
  am_data : Nat
  deriving Repr, DecidableEq

/-- Default slot value, used only as the default of `List.getD`. -/
def msgDefault : px4_adc_msg_t := { am_channel := 0, am_data := 0 }

/-- Modelled from the spec: the published report layout (the uORB
`adc_report` message, declared outside `src/`): device identifier,
reference voltage, resolution, a monotonic timestamp, and two
fixed-length arrays of length `MAX_SUPPORTED_CHANNELS` — `channel_id`
(signed, `-1` = unused) and `raw_data` (unsigned raw counts).  The
reference voltage is carried opaquely as a `Nat` code since no claim
computes with it. -/
structure adc_report_s where
  device_id : Nat
  v_ref : Nat
  resolution : Nat
  timestamp : Nat
  channel_id : List Int
  raw_data : List Nat
  deriving Repr, DecidableEq

/-- Number of set bits of `m` (binary popcount). -/
def popcount (n : Nat) : Nat :=
  if n = 0 then 0 else popcount (n / 2) + n % 2
decreasing_by exact Nat.div_lt_self (Nat.pos_of_ne_zero (by assumption)) (by decide)

/-- Popcount of `m` restricted to the bits below `total`. -/
def popcountBelow (m total : Nat) : Nat := popcount (m % 2 ^ total)

/-- The constructor `ADC::ADC(base_address, channels)`: OR the
temperature-sensor always-on mask into the requested channel mask, then
walk the channel indices `0 ≤ i < ADC_TOTAL_CHANNELS` in order and
create one sample slot (`am_channel = i`, `am_data = 0`) for every set
bit.  (`_channel_count` is the length of the resulting list; the
over-capacity check at construction only logs.) -/
def ADC.construct (total temp_sensor_mask requested : Nat) : List px4_adc_msg_t :=
  let channels := requested ||| temp_sensor_mask
  ((List.range total).filter (fun i => channels.testBit i)).map
    (fun i => { am_channel := i, am_data := 0 })

/-- `ADC::sample(channel)`: forward the hardware collaborator's raw
value unchanged; a result equal to `UINT32_MAX` is logged as a timeout
but still returned (no retry). -/
def ADC.sample (hw : Nat → Nat) (channel : Nat) : Nat :=
  hw channel

/-- The report-assembly part of `ADC::Run` (lines 113–131): start from a
value-initialized `adc_report_s` (all `raw_data` zero), set the device
id, copy the first `max_num = min(_channel_count, capacity)` sample
slots into `channel_id`/`raw_data` in order, set `channel_id` of every
remaining slot up to `PX4_MAX_ADC_CHANNELS` to `-1`, and fill the
metadata fields. -/
def ADC.buildReport (MAX : Nat) (samples : List px4_adc_msg_t)
    (dev vref res ts : Nat) : adc_report_s :=
  let max_num := min samples.length MAX
  { device_id := dev
    v_ref := vref
    resolution := res
    timestamp := ts
    channel_id := (List.range MAX).map (fun i =>
      if i < max_num then ((samples.getD i msgDefault).am_channel : Int) else -1)
    raw_data := (List.range MAX).map (fun i =>
      if i < max_num then (samples.getD i msgDefault).am_data else 0) }

/-- Engine state visible to `Run`: the `should_exit` shutdown request
flag, whether the engine is still registered with the periodic
scheduler, and the sample array. -/
structure EngineState where
  should_exit : Bool
  registered : Bool
  samples : List px4_adc_msg_t
  deriving Repr, DecidableEq

/-- Outcome of one invocation of `ADC::Run`: the successor engine
state, the ordered list of channels read from the hardware during the
invocation, and the report published to the transport (if any). -/
structure RunOutput where
  state : EngineState
  reads : List Nat
  published : Option adc_report_s
  deriving Repr, DecidableEq

/-- `ADC::Run()`: if shutdown has been requested, tear down and leave
the periodic registration (modelled from the spec: `exit_and_cleanup`
of the work-queue framework, declared outside `src/`, deregisters the
callback permanently) without sampling or publishing.  Otherwise sample
every configured channel in order into the sample array, assemble the
report and publish it. -/
def ADC.Run (MAX : Nat) (hw : Nat → Nat) (dev vref res ts : Nat)
    (st : EngineState) : RunOutput :=
  if st.should_exit then
    { state := { st with registered := false }, reads := [], published := none }
  else
    let samples := st.samples.map
      (fun s => { s with am_data := ADC.sample hw s.am_channel })
    { state := { st with samples := samples }
      reads := st.samples.map (fun s => s.am_channel)
      published := some (ADC.buildReport MAX samples dev vref res ts) }

/-- One tick of the external scheduler: invoke `Run` when the engine is
registered, otherwise do nothing (a deregistered engine receives no
further ticks). -/
def scheduler_tick (MAX : Nat) (hw : Nat → Nat) (dev vref res ts : Nat)
    (st : EngineState) : EngineState × List Nat × Option adc_report_s :=
  if st.registered then
    let o := ADC.Run MAX hw dev vref res ts st
    (o.state, o.reads, o.published)
  else (st, [], none)

/-- `n` consecutive scheduler ticks, collecting for each tick the
channels read and the report published. -/
def scheduler_iter (MAX : Nat) (hw : Nat → Nat) (dev vref res ts : Nat) :
    Nat → EngineState → EngineState × List (List Nat × Option adc_report_s)
  | 0, st => (st, [])
  | n + 1, st =>
    let t := scheduler_tick MAX hw dev vref res ts st
    let rest := scheduler_iter MAX hw dev vref res ts n t.1
    (rest.1, t.2 :: rest.2)

/-- `ADC::init()`: initialize the hardware for the base address; a
negative result is returned unchanged with nothing scheduled; otherwise
`ScheduleOnInterval(kINTERVAL, kINTERVAL)` registers the periodic
callback (initial delay, repeat interval) and `PX4_OK` is returned.
`arch_ret` is the hardware collaborator's result, `kI` the interval
constant `kINTERVAL` from the header. -/
def ADC.init (kI : Nat) (arch_ret : Int) : Int × Option (Nat × Nat) :=
  if arch_ret < 0 then (arch_ret, none)
  else (PX4_OK, some (kI, kI))

/-- Modelled from the spec: the sentinel task id stored by work-queue
modules (`task_id_is_work_queue` of the module framework, outside
`src/`). -/
def task_id_is_work_queue : Int := -2

/-- The controller's stored singleton: `_object` (the stored engine
instance, `none` = no instance) and `_task_id`. -/
structure ControllerState where
  _object : Option EngineState
  _task_id : Int
  deriving Repr, DecidableEq

/-- A freshly constructed engine (`new ADC(SYSTEM_ADC_BASE,
ADC_CHANNELS)`): shutdown not requested, not yet scheduled, sample
array prefilled by the constructor. -/
def ADC.newInstance (total temp channels : Nat) : EngineState :=
  { should_exit := false
    registered := false
    samples := ADC.construct total temp channels }

/-- `ADC::task_spawn`: construct an instance; when allocation succeeds,
store it and set the work-queue task id, then call `init()`; on
`init() == PX4_OK` keep the instance (now scheduled) and return
`PX4_OK`.  On any failure path, delete the instance, store the null
instance, reset `_task_id` to `-1` and return `PX4_ERROR`.  The third
component records whether a constructed instance was destroyed on the
way out. -/
def ADC.task_spawn (allocOk : Bool) (arch_ret : Int) (kI total temp channels : Nat)
    (st : ControllerState) : ControllerState × Int × Bool :=
  if allocOk then
    let inst := ADC.newInstance total temp channels
    let r := ADC.init kI arch_ret
    if r.1 = PX4_OK then
      ({ _object := some { inst with registered := r.2.isSome }
         _task_id := task_id_is_work_queue }, PX4_OK, false)
    else
      ({ _object := none, _task_id := -1 }, PX4_ERROR, true)
  else
    ({ _object := none, _task_id := -1 }, PX4_ERROR, false)

/-- Modelled from the spec: the framework's `start` dispatch
(`ModuleBase::main`/`start_command_base`, outside `src/`): `start` is
valid only when no instance exists; when an instance is already stored
it is an explicit error and `task_spawn` is not invoked, so the stored
instance is never replaced. -/
def startCommand (allocOk : Bool) (arch_ret : Int) (kI total temp channels : Nat)
    (st : ControllerState) : ControllerState × Int × Bool :=
  if st._object.isSome then (st, PX4_ERROR, false)
  else ADC.task_spawn allocOk arch_ret kI total temp channels st

/-- `ADC::test()`: after the initial 20 ms wait, poll the report topic
once.  On success, run exactly 20 fixed-delay iterations; an iteration
whose poll fails to produce a fresh report is flagged (`true` in the
returned list) but the loop always runs to completion, and `0` is
returned.  If the initial poll saw no report, return `1`.
`initialUpdate` is the outcome of the initial poll and `poll l` the
outcome of the poll in iteration `l`. -/
def ADC.test (initialUpdate : Bool) (poll : Nat → Bool) : Int × List Bool :=
  if initialUpdate then
    (0, (List.range 20).map (fun l => !poll l))
  else
    (1, [])

/-- `ADC::print_usage(reason)`: warn with the reason when one is given,
print the module usage, and return `0`.  The second component is the
list of warnings emitted. -/
def ADC.print_usage (reason : Option String) : Int × List String :=
  (0, match reason with
      | some r => [r]
      | none => [])

/-- `ADC::custom_command`: the verb `test` delegates to the running
instance's `test()` (result `testResult`), or fails with `PX4_ERROR`
when no instance is running; every other verb reports
`unknown command` through `print_usage` and returns its result.  The
controller state is returned unchanged (the function never writes it)
together with the warnings emitted. -/
def ADC.custom_command (verb : String) (running : Bool) (testResult : Int)
    (st : ControllerState) : Int × ControllerState × List String :=
  if verb = "test" then
    if running then (testResult, st, [])
    else (PX4_ERROR, st, [])
  else
    let u := ADC.print_usage (some "unknown command")
    (u.1, st, u.2)

/-! ### Concrete fixtures used by the witness theorems -/

/-- A concrete live engine state: three configured channels 1, 3, 5. -/
def demoState : EngineState :=
  { should_exit := false
    registered := true
    samples := [{ am_channel := 1, am_data := 0 },
                { am_channel := 3, am_data := 0 },
                { am_channel := 5, am_data := 0 }] }

/-- A concrete live engine state with a single configured channel. -/
def demoSmallState : EngineState :=
  { should_exit := false
    registered := true
    samples := [{ am_channel := 1, am_data := 0 }] }

/-- A concrete engine state with shutdown requested. -/
def demoStopState : EngineState :=
  { should_exit := true
    registered := true
    samples := [{ am_channel := 1, am_data := 7 }] }

/-- A concrete hardware oracle: channel `c` reads `100 + c`. -/
def demoHw : Nat → Nat := fun c => 100 + c

/-- A concrete hardware oracle where channel 3 times out (all-ones
sentinel) and every other channel reads `100 + c`. -/
def demoHwTimeout : Nat → Nat := fun c => if c = 3 then UINT32_MAX else 100 + c

/-- A concrete poll oracle for the self-test loop. -/
def demoPoll : Nat → Bool := fun l => l % 2 == 0

/-! ### Helper lemmas -/

lemma popcount_zero : popcount 0 = 0 := by
  rw [popcount]
  simp

lemma popcount_two_mul_add (k r : Nat) (hr : r < 2) :
    popcount (2 * k + r) = popcount k + r := by
  rw [popcount]
  by_cases h : 2 * k + r = 0
  · have hk : k = 0 := by omega
    have hr0 : r = 0 := by omega
    subst hk hr0
    simp [popcount_zero]
  · rw [if_neg h]
    have h1 : (2 * k + r) / 2 = k := by omega
    have h2 : (2 * k + r) % 2 = r := by omega
    rw [h1, h2]

lemma length_filter_range_testBit (t : Nat) : ∀ m : Nat,
    ((List.range t).filter (fun i => m.testBit i)).length = popcountBelow m t := by
  induction t with
  | zero =>
    intro m
    simp [popcountBelow, Nat.mod_one, popcount_zero]
  | succ t ih =>
    intro m
    have hmod : m % 2 ^ (t + 1) = 2 * (m / 2 % 2 ^ t) + m % 2 := by
      rw [pow_succ, Nat.mul_comm (2 ^ t) 2, @Nat.mod_mul 2 (2 ^ t) m]
      exact Nat.add_comm _ _
    have hcomp : ((fun i => m.testBit i) ∘ Nat.succ) = (fun i => (m / 2).testBit i) := by
      funext i
      simp [Function.comp, Nat.testBit_succ]
    rw [popcountBelow, hmod,
      popcount_two_mul_add (m / 2 % 2 ^ t) (m % 2) (Nat.mod_lt m (by decide)),
      List.range_succ_eq_map, List.filter_cons, List.filter_map, hcomp]
    have hrest := ih (m / 2)
    rw [popcountBelow] at hrest
    rcases Nat.mod_two_eq_zero_or_one m with h | h <;>
      simp [h, hrest]

lemma getD_map_of_lt {α β : Type} (l : List α) (f : α → β) (j : Nat) (d : β) (d' : α)
    (h : j < l.length) : (l.map f).getD j d = f (l.getD j d') := by
  have h' : j < (l.map f).length := by simpa using h
  rw [List.getD_eq_getElem?_getD, List.getD_eq_getElem?_getD,
    List.getElem?_eq_getElem h', List.getElem?_eq_getElem h]
  simp

lemma getD_range_map_of_lt {β : Type} (g : Nat → β) (n j : Nat) (d : β) (h : j < n) :
    ((List.range n).map g).getD j d = g j := by
  have h' : j < (List.range n).length := by simpa using h
  rw [getD_map_of_lt _ _ _ _ 0 h']
  congr 1
  rw [List.getD_eq_getElem?_getD, List.getElem?_eq_getElem h']
  simp

lemma getD_take_of_lt {α : Type} (l : List α) (n i : Nat) (d : α) (h : i < n) :
    (l.take n).getD i d = l.getD i d := by
  rw [List.getD_eq_getElem?_getD, List.getD_eq_getElem?_getD,
    List.getElem?_take_of_lt h]

lemma buildReport_channel_id_length (MAX : Nat) (samples : List px4_adc_msg_t)
    (dev vref res ts : Nat) :
    (ADC.buildReport MAX samples dev vref res ts).channel_id.length = MAX := by
  simp [ADC.buildReport]

lemma buildReport_raw_data_length (MAX : Nat) (samples : List px4_adc_msg_t)
    (dev vref res ts : Nat) :
    (ADC.buildReport MAX samples dev vref res ts).raw_data.length = MAX := by
  simp [ADC.buildReport]

lemma buildReport_channel_id_getD (MAX : Nat) (samples : List px4_adc_msg_t)
    (dev vref res ts : Nat) (i : Nat) (d : Int) (h : i < MAX) :
    (ADC.buildReport MAX samples dev vref res ts).channel_id.getD i d =
      if i < min samples.length MAX then ((samples.getD i msgDefault).am_channel : Int)
      else -1 := by
  simp only [ADC.buildReport]
  exact getD_range_map_of_lt _ _ _ _ h

lemma buildReport_raw_data_getD (MAX : Nat) (samples : List px4_adc_msg_t)
    (dev vref res ts : Nat) (i : Nat) (d : Nat) (h : i < MAX) :
    (ADC.buildReport MAX samples dev vref res ts).raw_data.getD i d =
      if i < min samples.length MAX then (samples.getD i msgDefault).am_data
      else 0 := by
  simp only [ADC.buildReport]
  exact getD_range_map_of_lt _ _ _ _ h

lemma buildReport_take (MAX : Nat) (samples : List px4_adc_msg_t)
    (dev vref res ts : Nat) :
    ADC.buildReport MAX samples dev vref res ts =
      ADC.buildReport MAX (samples.take MAX) dev vref res ts := by
  have hmin : min (samples.take MAX).length MAX = min samples.length MAX := by
    simp [List.length_take]
    omega
  simp only [ADC.buildReport, adc_report_s.mk.injEq, hmin]
  refine ⟨trivial, trivial, trivial, trivial, ?_, ?_⟩ <;>
    refine List.map_congr_left (fun i hi => ?_) <;>
    rw [List.mem_range] at hi <;>
    by_cases hlt : i < min samples.length MAX <;>
    simp [hlt, List.getElem?_take_of_lt hi]

lemma run_not_exit (MAX : Nat) (hw : Nat → Nat) (dev vref res ts : Nat)
    (st : EngineState) (h : st.should_exit = false) :
    (ADC.Run MAX hw dev vref res ts st).state.samples =
      st.samples.map (fun s => { s with am_data := hw s.am_channel }) ∧
    (ADC.Run MAX hw dev vref res ts st).reads =
      st.samples.map (fun s => s.am_channel) ∧
    (ADC.Run MAX hw dev vref res ts st).published =
      some (ADC.buildReport MAX ((ADC.Run MAX hw dev vref res ts st).state.samples)
        dev vref res ts) ∧
    (ADC.Run MAX hw dev vref res ts st).state.should_exit = st.should_exit ∧
    (ADC.Run MAX hw dev vref res ts st).state.registered = st.registered := by
  simp [ADC.Run, ADC.sample, h]

lemma scheduler_iter_unregistered (MAX : Nat) (hw : Nat → Nat) (dev vref res ts : Nat)
    (n : Nat) (st : EngineState) (h : st.registered = false) :
    scheduler_iter MAX hw dev vref res ts n st = (st, List.replicate n ([], none)) := by
  induction n with
  | zero => rfl
  | succ n ih =>
    simp [scheduler_iter, scheduler_tick, h, ih, List.replicate_succ]

/-! ### Claim theorems -/

/-- C1: on every non-shutdown cycle, `Run` publishes a report whose
`channel_id` and `raw_data` arrays have length `MAX_SUPPORTED_CHANNELS`,
whose first `min(configured channel count, MAX_SUPPORTED_CHANNELS)`
slots copy the SampleSet entries in order, whose `channel_id` slots from
that number up to `MAX_SUPPORTED_CHANNELS` are `-1`, and which is
determined by the first `MAX_SUPPORTED_CHANNELS` SampleSet entries alone
(truncation, not wraparound). -/
theorem C1_run_report_truncation (MAX : Nat) (hw : Nat → Nat) (dev vref res ts : Nat)
    (st : EngineState) (h : st.should_exit = false) :
    ∃ r, (ADC.Run MAX hw dev vref res ts st).published = some r ∧
      r.channel_id.length = MAX ∧
      r.raw_data.length = MAX ∧
      (∀ i, i < min (ADC.Run MAX hw dev vref res ts st).state.samples.length MAX →
        r.channel_id.getD i 0 =
          (((ADC.Run MAX hw dev vref res ts st).state.samples.getD i msgDefault).am_channel : Int) ∧
        r.raw_data.getD i 7 =
          ((ADC.Run MAX hw dev vref res ts st).state.samples.getD i msgDefault).am_data) ∧
      (∀ i, min (ADC.Run MAX hw dev vref res ts st).state.samples.length MAX ≤ i → i < MAX →
        r.channel_id.getD i 0 = -1) ∧
      r = ADC.buildReport MAX
        ((ADC.Run MAX hw dev vref res ts st).state.samples.take MAX) dev vref res ts := by
  obtain ⟨-, -, hp, -, -⟩ := run_not_exit MAX hw dev vref res ts st h
  refine ⟨_, hp, buildReport_channel_id_length _ _ _ _ _ _,
    buildReport_raw_data_length _ _ _ _ _ _, ?_, ?_, buildReport_take _ _ _ _ _ _⟩
  · intro i hi
    have hiM : i < MAX := lt_of_lt_of_le hi (min_le_right _ _)
    constructor
    · rw [buildReport_channel_id_getD _ _ _ _ _ _ _ _ hiM, if_pos hi]
    · rw [buildReport_raw_data_getD _ _ _ _ _ _ _ _ hiM, if_pos hi]
  · intro i hge hiM
    rw [buildReport_channel_id_getD _ _ _ _ _ _ _ _ hiM, if_neg (not_lt.mpr hge)]

/-- Witness for C1 at a concrete input: three configured channels with
report capacity 2 — the first two are copied, channel 5 is truncated
away. -/
theorem C1_run_report_truncation_witness :
    demoState.should_exit = false ∧
    (ADC.Run 2 demoHw 9 3 4095 77 demoState).published =
      some { device_id := 9, v_ref := 3, resolution := 4095, timestamp := 77,
             channel_id := [1, 3], raw_data := [101, 103] } := by
  refine ⟨rfl, ?_⟩
  obtain ⟨r, h1, -, -, -, -, h6⟩ := C1_run_report_truncation 2 demoHw 9 3 4095 77 demoState rfl
  rw [h1, h6]
  rfl

/-- C10: on every non-shutdown cycle the published report's `raw_data`
slots at index at or above the number of reported channels are exactly
0 (the report struct is value-initialized each cycle). -/
theorem C10_unused_raw_data_zero (MAX : Nat) (hw : Nat → Nat) (dev vref res ts : Nat)
    (st : EngineState) (h : st.should_exit = false) :
    ∃ r, (ADC.Run MAX hw dev vref res ts st).published = some r ∧
      r.raw_data.length = MAX ∧
      ∀ i, min (ADC.Run MAX hw dev vref res ts st).state.samples.length MAX ≤ i →
        i < MAX → r.raw_data.getD i 7 = 0 := by
  obtain ⟨-, -, hp, -, -⟩ := run_not_exit MAX hw dev vref res ts st h
  refine ⟨_, hp, buildReport_raw_data_length _ _ _ _ _ _, ?_⟩
  intro i hge hiM
  rw [buildReport_raw_data_getD _ _ _ _ _ _ _ _ hiM, if_neg (not_lt.mpr hge)]

/-- Witness for C10 at a concrete input: one configured channel,
capacity 2 — the unused trailing `raw_data` slot is 0. -/
theorem C10_unused_raw_data_zero_witness :
    demoSmallState.should_exit = false ∧
    (ADC.Run 2 demoHw 9 3 4095 77 demoSmallState).published =
      some { device_id := 9, v_ref := 3, resolution := 4095, timestamp := 77,
             channel_id := [1, -1], raw_data := [101, 0] } ∧
    ∃ r, (ADC.Run 2 demoHw 9 3 4095 77 demoSmallState).published = some r ∧
      r.raw_data.getD 1 7 = 0 := by
  refine ⟨rfl, by rfl, ?_⟩
  obtain ⟨r, h1, -, h3⟩ := C10_unused_raw_data_zero 2 demoHw 9 3 4095 77 demoSmallState rfl
  exact ⟨r, h1, h3 1 (by decide) (by decide)⟩

/-- C5: on a non-shutdown cycle, a configured channel whose hardware
read returns the all-ones sentinel still has the sentinel stored in its
SampleSet slot, every configured channel is read exactly once in order
(no retry), and the cycle still publishes a report carrying the
max-unsigned value for that channel (when it is within report
capacity). -/
theorem C5_timeout_sentinel_published (MAX : Nat) (hw : Nat → Nat) (dev vref res ts : Nat)
    (st : EngineState) (j : Nat) (h : st.should_exit = false)
    (hj : j < st.samples.length)
    (hsent : hw ((st.samples.getD j msgDefault).am_channel) = UINT32_MAX) :
    ((ADC.Run MAX hw dev vref res ts st).state.samples.getD j msgDefault).am_data =
      UINT32_MAX ∧
    (ADC.Run MAX hw dev vref res ts st).reads =
      st.samples.map (fun s => s.am_channel) ∧
    ∃ r, (ADC.Run MAX hw dev vref res ts st).published = some r ∧
      (j < MAX → r.raw_data.getD j 7 = UINT32_MAX) := by
  obtain ⟨hs, hr, hp, -, -⟩ := run_not_exit MAX hw dev vref res ts st h
  have hdata : ((ADC.Run MAX hw dev vref res ts st).state.samples.getD j msgDefault).am_data
      = UINT32_MAX := by
    rw [hs, getD_map_of_lt _ _ _ _ msgDefault hj]
    exact hsent
  refine ⟨hdata, hr, _, hp, ?_⟩
  intro hjM
  have hlen : (ADC.Run MAX hw dev vref res ts st).state.samples.length =
      st.samples.length := by
    rw [hs]
    simp
  have hmin : j < min (ADC.Run MAX hw dev vref res ts st).state.samples.length MAX := by
    rw [hlen]
    omega
  rw [buildReport_raw_data_getD _ _ _ _ _ _ _ _ hjM, if_pos hmin]
  exact hdata

/-- Witness for C5 at a concrete input: channel 3 (slot 1) times out;
the sentinel is stored and published while the cycle completes. -/
theorem C5_timeout_sentinel_published_witness :
    demoState.should_exit = false ∧
    1 < demoState.samples.length ∧
    demoHwTimeout ((demoState.samples.getD 1 msgDefault).am_channel) = UINT32_MAX ∧
    ((ADC.Run 2 demoHwTimeout 9 3 4095 77 demoState).state.samples.getD 1 msgDefault).am_data =
      UINT32_MAX ∧
    (ADC.Run 2 demoHwTimeout 9 3 4095 77 demoState).reads = [1, 3, 5] ∧
    (ADC.Run 2 demoHwTimeout 9 3 4095 77 demoState).published =
      some { device_id := 9, v_ref := 3, resolution := 4095, timestamp := 77,
             channel_id := [1, 3], raw_data := [101, UINT32_MAX] } := by
  obtain ⟨h1, h2, -⟩ :=
    C5_timeout_sentinel_published 2 demoHwTimeout 9 3 4095 77 demoState 1 rfl
      (by decide) (by rfl)
  exact ⟨rfl, by decide, by rfl, h1, by rw [h2]; rfl, by rfl⟩

/-- C2: for every requested channel bitmask, the constructed SampleSet
has length `popcount(requested | always_on)` counting only bits below
`ADC_TOTAL_CHANNELS`, its channel ids are strictly ascending and
unique, and every raw value is initialized to 0. -/
theorem C2_channel_set_shape (total temp requested : Nat) :
    (ADC.construct total temp requested).length =
      popcountBelow (requested ||| temp) total ∧
    ((ADC.construct total temp requested).map (fun x => x.am_channel)).Pairwise (· < ·) ∧
    ((ADC.construct total temp requested).map (fun x => x.am_channel)).Nodup ∧
    ∀ x, x ∈ ADC.construct total temp requested → x.am_data = 0 := by
  have hmap : (ADC.construct total temp requested).map (fun x => x.am_channel) =
      (List.range total).filter (fun i => (requested ||| temp).testBit i) := by
    simp [ADC.construct, List.map_map, Function.comp_def]
  have hpair :
      ((ADC.construct total temp requested).map (fun x => x.am_channel)).Pairwise (· < ·) := by
    rw [hmap]
    exact List.Pairwise.sublist (List.filter_sublist _) (List.pairwise_lt_range total)
  have hlen : (ADC.construct total temp requested).length =
      popcountBelow (requested ||| temp) total := by
    rw [← length_filter_range_testBit total (requested ||| temp)]
    simp [ADC.construct]
  refine ⟨hlen, hpair, hpair.imp (fun hab => Nat.ne_of_lt hab), ?_⟩
  intro x hx
  simp [ADC.construct] at hx
  obtain ⟨i, -, hxe⟩ := hx
  rw [← hxe]

/-- Witness for C2 at the spec's own example: requested channels 2 and
5, always-on channel 10 — the configured list is `[2, 5, 10]`. -/
theorem C2_channel_set_shape_witness :
    (ADC.construct 16 1024 36).length = popcountBelow (36 ||| 1024) 16 ∧
    (ADC.construct 16 1024 36).map (fun x => x.am_channel) = [2, 5, 10] ∧
    ({ am_channel := 10, am_data := 0 } : px4_adc_msg_t) ∈ ADC.construct 16 1024 36 ∧
    ({ am_channel := 10, am_data := 0 } : px4_adc_msg_t).am_data = 0 := by
  refine ⟨(C2_channel_set_shape 16 1024 36).1, by rfl, by decide,
    (C2_channel_set_shape 16 1024 36).2.2.2 _ (by decide)⟩

/-- C3 counterexample: at the concrete unknown verb `status` (with no
instance running), `custom_command` does report `unknown command` but
returns 0, refuting the claim's non-zero result: `print_usage` returns
0 and `custom_command` forwards it. -/
theorem C3_unknown_command_counterexample :
    (ADC.custom_command "status" false 0 { _object := none, _task_id := -1 }).1 = 0 ∧
    (ADC.custom_command "status" false 0 { _object := none, _task_id := -1 }).2.2 =
      ["unknown command"] := by
  exact ⟨rfl, rfl⟩

/-- C3 (amended): for every command token other than `test`,
`custom_command` reports `unknown command` and returns the usage
printer's result 0 (not a non-zero result), without altering any
state. -/
theorem C3_unknown_command_amended (verb : String) (running : Bool) (tr : Int)
    (st : ControllerState) (h : verb ≠ "test") :
    ADC.custom_command verb running tr st = (0, st, ["unknown command"]) := by
  unfold ADC.custom_command
  rw [if_neg h]
  rfl

/-- Witness for the amended C3 at the concrete verb `status`. -/
theorem C3_unknown_command_amended_witness :
    "status" ≠ "test" ∧
    ADC.custom_command "status" true 0 { _object := none, _task_id := -1 } =
      (0, { _object := none, _task_id := -1 }, ["unknown command"]) :=
  ⟨by decide, C3_unknown_command_amended "status" true 0 _ (by decide)⟩

/-- C4: invoking `start` while an instance is already stored is an
explicit error: the controller state (and in particular the stored
instance) is returned unchanged, `PX4_ERROR` is reported, and no
instance is constructed or destroyed. -/
theorem C4_start_when_running (allocOk : Bool) (arch_ret : Int)
    (kI total temp channels : Nat) (st : ControllerState) (e : EngineState)
    (h : st._object = some e) :
    startCommand allocOk arch_ret kI total temp channels st = (st, PX4_ERROR, false) := by
  simp [startCommand, h]

/-- Witness for C4 at a concrete input: a second `start` with a live
stored instance leaves it untouched and fails. -/
theorem C4_start_when_running_witness :
    ({ _object := some demoState, _task_id := task_id_is_work_queue } :
        ControllerState)._object = some demoState ∧
    startCommand true 0 10000 16 1024 36
        { _object := some demoState, _task_id := task_id_is_work_queue } =
      ({ _object := some demoState, _task_id := task_id_is_work_queue },
        PX4_ERROR, false) :=
  ⟨rfl, C4_start_when_running true 0 10000 16 1024 36 _ demoState rfl⟩

/-- C6: `init()` forwards a negative hardware-init result unchanged
without registering the periodic schedule; on a non-negative result it
registers the periodic callback with the interval constant as both the
initial delay and the repeat interval, and returns `PX4_OK`. -/
theorem C6_init_schedule (kI : Nat) (arch_ret : Int) :
    (arch_ret < 0 → ADC.init kI arch_ret = (arch_ret, none)) ∧
    (0 ≤ arch_ret → ADC.init kI arch_ret = (PX4_OK, some (kI, kI))) := by
  constructor
  · intro h
    simp [ADC.init, h]
  · intro h
    simp [ADC.init, not_lt.mpr h]

/-- Witness for C6 at concrete inputs: a failed init (-5) and a
successful one (0) with interval constant 10000 µs. -/
theorem C6_init_schedule_witness :
    ((-5 : Int) < 0 ∧ ADC.init 10000 (-5) = (-5, none)) ∧
    ((0 : Int) ≤ 0 ∧ ADC.init 10000 0 = (PX4_OK, some (10000, 10000))) :=
  ⟨⟨by decide, (C6_init_schedule 10000 (-5)).1 (by decide)⟩,
   ⟨by decide, (C6_init_schedule 10000 0).2 (by decide)⟩⟩

/-- C7: when `init()` fails inside `task_spawn` (negative hardware-init
result), the constructed instance is destroyed, the stored instance
reference is cleared back to the no-instance state (`_object = none`,
`_task_id = -1`) and `PX4_ERROR` is returned. -/
theorem C7_task_spawn_init_failure (arch_ret : Int) (kI total temp channels : Nat)
    (st : ControllerState) (h : arch_ret < 0) :
    ADC.task_spawn true arch_ret kI total temp channels st =
      ({ _object := none, _task_id := -1 }, PX4_ERROR, true) := by
  have hne : ¬((ADC.init kI arch_ret).1 = PX4_OK) := by
    simp [ADC.init, h, PX4_OK]
    omega
  simp [ADC.task_spawn, hne]

/-- Witness for C7 at a concrete input: hardware init fails with -5. -/
theorem C7_task_spawn_init_failure_witness :
    (-5 : Int) < 0 ∧
    ADC.task_spawn true (-5) 10000 16 1024 36 { _object := none, _task_id := -1 } =
      ({ _object := none, _task_id := -1 }, PX4_ERROR, true) :=
  ⟨by decide, C7_task_spawn_init_failure (-5) 10000 16 1024 36 _ (by decide)⟩

/-- C8: the self-test returns 0 exactly when the initial report poll
observed a report; the 20-iteration loop always runs to completion with
iteration `l` flagged as a failure exactly when its poll fails, the
return value does not depend on the loop's poll outcomes, and a missing
initial report yields the non-zero result 1. -/
theorem C8_test_return (initialUpdate : Bool) (poll poll' : Nat → Bool) :
    ((ADC.test initialUpdate poll).1 = 0 ↔ initialUpdate = true) ∧
    (ADC.test initialUpdate poll).1 = (ADC.test initialUpdate poll').1 ∧
    (initialUpdate = true →
      (ADC.test initialUpdate poll).2.length = 20 ∧
      ∀ l, l < 20 → (ADC.test initialUpdate poll).2.getD l false = !poll l) ∧
    (initialUpdate = false → (ADC.test initialUpdate poll).1 = 1 ∧
      (ADC.test initialUpdate poll).1 ≠ 0) := by
  cases initialUpdate
  · refine ⟨by simp [ADC.test], by simp [ADC.test], by simp, fun _ => ⟨by simp [ADC.test], by simp [ADC.test]⟩⟩
  · refine ⟨by simp [ADC.test], by simp [ADC.test], fun _ => ⟨by simp [ADC.test], ?_⟩, by simp⟩
    intro l hl
    simp only [ADC.test, if_pos rfl]
    exact getD_range_map_of_lt _ _ _ _ hl

/-- Witness for C8 at concrete inputs: with the initial report observed
and alternating poll outcomes, iteration 3's failed poll is flagged
while the result stays 0; with no initial report the result is 1. -/
theorem C8_test_return_witness :
    (ADC.test true demoPoll).1 = 0 ∧
    (ADC.test true demoPoll).2.length = 20 ∧
    (ADC.test true demoPoll).2.getD 3 false = true ∧
    (ADC.test false demoPoll).1 = 1 := by
  obtain ⟨h1, -, h3, -⟩ := C8_test_return true demoPoll demoPoll
  obtain ⟨h3a, h3b⟩ := h3 rfl
  refine ⟨h1.mpr rfl, h3a, ?_, ((C8_test_return false demoPoll demoPoll).2.2.2 rfl).1⟩
  rw [h3b 3 (by decide)]
  rfl

/-- C9: once shutdown has been requested, `Run` tears down and returns
immediately: it reads no channel, leaves the SampleSet unchanged,
publishes nothing, and leaves the periodic registration, so every later
scheduler tick reads nothing and publishes nothing (terminal
transition). -/
theorem C9_shutdown_terminal (MAX : Nat) (hw : Nat → Nat) (dev vref res ts : Nat)
    (st : EngineState) (h : st.should_exit = true) :
    (ADC.Run MAX hw dev vref res ts st).reads = [] ∧
    (ADC.Run MAX hw dev vref res ts st).published = none ∧
    (ADC.Run MAX hw dev vref res ts st).state.samples = st.samples ∧
    (ADC.Run MAX hw dev vref res ts st).state.registered = false ∧
    ∀ n, scheduler_iter MAX hw dev vref res ts n (ADC.Run MAX hw dev vref res ts st).state =
      ((ADC.Run MAX hw dev vref res ts st).state, List.replicate n ([], none)) := by
  have hrun : ADC.Run MAX hw dev vref res ts st =
      { state := { st with registered := false }, reads := [], published := none } := by
    simp [ADC.Run, h]
  rw [hrun]
  exact ⟨rfl, rfl, rfl, rfl, fun n =>
    scheduler_iter_unregistered MAX hw dev vref res ts n _ rfl⟩

/-- Witness for C9 at a concrete input: a shutdown-requested state with
one channel; three further scheduler ticks read and publish nothing. -/
theorem C9_shutdown_terminal_witness :
    demoStopState.should_exit = true ∧
    (ADC.Run 2 demoHw 9 3 4095 77 demoStopState).reads = [] ∧
    (ADC.Run 2 demoHw 9 3 4095 77 demoStopState).published = none ∧
    (ADC.Run 2 demoHw 9 3 4095 77 demoStopState).state.samples =
      [{ am_channel := 1, am_data := 7 }] ∧
    scheduler_iter 2 demoHw 9 3 4095 77 3 (ADC.Run 2 demoHw 9 3 4095 77 demoStopState).state =
      ((ADC.Run 2 demoHw 9 3 4095 77 demoStopState).state,
        [([], none), ([], none), ([], none)]) := by
  obtain ⟨h1, h2, h3, -, h5⟩ := C9_shutdown_terminal 2 demoHw 9 3 4095 77 demoStopState rfl
  refine ⟨rfl, h1, h2, h3, ?_⟩
  rw [h5 3]
  rfl

end ADCVerify
